import Mathlib

/-!
Verification of the Hum Embedding Service (src/hum-embedding-service/main.py).

The service exposes POST /embed: it lazily loads a pretrained Wav2Vec2
model into process-wide globals (`processor`, `model`), validates the
uploaded bytes, decodes them with librosa at 16 kHz mono, rejects buffers
below 1600 samples, runs the encoder, mean-pools the hidden states over
the time axis and returns the resulting 768-dimensional vector together
with its length.

The shallow embedding below models the externals as parameters:
* `Loader` stands for `Wav2Vec2Processor.from_pretrained` /
  `Wav2Vec2Model.from_pretrained`, each of which may raise;
* `World` carries `librosa.load` (decode + resample) and the composite
  `processor(...)` + `model(...).last_hidden_state` forward pass;
* floating-point sample and activation values are idealised as rationals.
Python exceptions become `Except` / an explicit error component; an
exception that escapes the handler (no surrounding `try`) becomes the
`serverError` outcome.
-/

namespace HumEmbedding

/-- `MODEL_ID = "facebook/wav2vec2-base"` (main.py line 31). -/
def MODEL_ID : String := "facebook/wav2vec2-base"

/-- `TARGET_SR = 16000` (main.py line 32). -/
def TARGET_SR : Nat := 16000

/-- `EMBEDDING_DIM = 768` (main.py line 33). -/
def EMBEDDING_DIM : Nat := 768

/-- Raw upload bytes. Only the byte values and the length matter. -/
abbrev Bytes := List Nat

/-- Decoded mono audio at 16 kHz: a list of sample values. -/
abbrev Audio := List ℚ

/-- The encoder output `last_hidden_state` with the batch axis squeezed:
a list of per-time-step vectors, each intended to have `EMBEDDING_DIM`
components. -/
abbrev Hidden := List (List ℚ)

/-- The process-wide globals `processor` and `model` (main.py lines 35-36),
both initialised to `None`. Handles are abstracted as `Nat` identifiers. -/
structure ServiceState where
  processor : Option Nat
  model : Option Nat
deriving Repr, DecidableEq

/-- The state at process start: `processor = None`, `model = None`. -/
def initialState : ServiceState := ⟨none, none⟩

/-- The external pretrained-artifact storage: the results of
`Wav2Vec2Processor.from_pretrained(MODEL_ID)` and
`Wav2Vec2Model.from_pretrained(MODEL_ID)`, each of which either returns a
handle or raises. -/
structure Loader where
  loadProcessor : Except String Nat
  loadModel : Except String Nat

/-- `load_model()` (main.py lines 39-47):

```python
def load_model():
    global processor, model
    if model is not None:
        return
    processor = Wav2Vec2Processor.from_pretrained(MODEL_ID)
    model = Wav2Vec2Model.from_pretrained(MODEL_ID)
    model.eval()
```

Returns the new global state and `some e` when an exception `e` escapes.
Note the guard inspects only `model`; if loading the processor succeeds
and loading the model then raises, the assignment to `processor` has
already happened. -/
def load_model (L : Loader) (s : ServiceState) : ServiceState × Option String :=
  if s.model.isSome then (s, none)
  else
    match L.loadProcessor with
    | .error e => (s, some e)
    | .ok p =>
      match L.loadModel with
      | .error e => (⟨some p, s.model⟩, some e)
      | .ok m => (⟨some p, some m⟩, none)

/-- The FastAPI startup hook (main.py lines 50-52), which just calls
`load_model()`. -/
def startup (L : Loader) (s : ServiceState) : ServiceState × Option String :=
  load_model L s

/-- The service is in the `Ready` lifecycle state when the model global is
loaded. -/
def ready (s : ServiceState) : Bool :=
  s.model.isSome

/-- The observable result of one call to the `/embed` handler:
a 200 response carrying the embedding and its length, an
`HTTPException(status_code=400, ...)` with its detail string, or an
uncaught exception (a 500-equivalent server failure). -/
inductive Outcome where
  | ok (embedding : List ℚ) (dim : Nat)
  | clientError (detail : String)
  | serverError (msg : String)
deriving Repr, DecidableEq

/-- The external libraries and the loaded-model behaviour:
`librosaLoad b` is `librosa.load(io.BytesIO(b), sr=16000, mono=True)`
(raising on undecodable input), and `lastHiddenState y` is the composite
`processor(y, ...)` then `model(input_values).last_hidden_state` with the
batch axis squeezed. Both are fixed (deterministic) functions of their
inputs for the life of a loaded model. -/
structure World where
  librosaLoad : Bytes → Except String Audio
  lastHiddenState : Audio → Hidden

/-- Componentwise sum of the per-time-step hidden vectors, starting from
the all-zero vector of length `EMBEDDING_DIM`. -/
def sumAxis0 (hidden : Hidden) : List ℚ :=
  hidden.foldr (fun v acc => List.zipWith (· + ·) v acc)
    (List.replicate EMBEDDING_DIM 0)

/-- `hidden.mean(dim=1).squeeze(0)` (main.py line 94): the componentwise
arithmetic mean of the per-time-step vectors. -/
def meanPool (hidden : Hidden) : List ℚ :=
  (sumAxis0 hidden).map (fun x => x / (hidden.length : ℚ))

/-- The `/embed` handler (main.py lines 60-96):

```python
async def embed(audio: UploadFile = File(...)) -> dict:
    load_model()
    try:
        contents = await audio.read()
    except Exception as e:
        raise HTTPException(status_code=400, detail=f"Failed to read upload: {e}")
    if len(contents) < 1000:
        raise HTTPException(status_code=400, detail="Audio file too short")
    try:
        y, sr = librosa.load(io.BytesIO(contents), sr=TARGET_SR, mono=True)
    except Exception as e:
        raise HTTPException(status_code=400, detail=f"Invalid audio: {e}")
    if len(y) < 1600:
        raise HTTPException(status_code=400, detail="Audio too short after load")
    with torch.no_grad():
        ...
        embedding = hidden.mean(dim=1).squeeze(0)
        vec = embedding.tolist()
    return {"embedding": vec, "dim": len(vec)}
```

`readResult` is the outcome of `await audio.read()`. An exception raised
by `load_model()` is not caught inside the handler and surfaces as a
server error. -/
def embed (L : Loader) (W : World) (readResult : Except String Bytes)
    (s : ServiceState) : ServiceState × Outcome :=
  match load_model L s with
  | (sNew, some e) => (sNew, .serverError e)
  | (sNew, none) =>
    match readResult with
    | .error e => (sNew, .clientError ("Failed to read upload: " ++ e))
    | .ok contents =>
      if contents.length < 1000 then
        (sNew, .clientError "Audio file too short")
      else
        match W.librosaLoad contents with
        | .error e => (sNew, .clientError ("Invalid audio: " ++ e))
        | .ok y =>
          if y.length < 1600 then
            (sNew, .clientError "Audio too short after load")
          else
            let vec := meanPool (W.lastHiddenState y)
            (sNew, .ok vec vec.length)

/-- The continuation of `embed` once the byte-length check has passed:
decode, post-decode length check, inference, serialisation. -/
def afterByteCheck (W : World) (contents : Bytes) : Outcome :=
  match W.librosaLoad contents with
  | .error e => .clientError ("Invalid audio: " ++ e)
  | .ok y =>
    if y.length < 1600 then
      .clientError "Audio too short after load"
    else
      let vec := meanPool (W.lastHiddenState y)
      .ok vec vec.length

/-! ### Concrete fixtures used to instantiate the theorems -/

/-- A loader whose two fetches both succeed. -/
def okLoader : Loader := ⟨.ok 1, .ok 2⟩

/-- A loader whose processor fetch succeeds but whose model fetch raises. -/
def badLoader : Loader := ⟨.ok 1, .error "download failed"⟩

/-- A state in which the model global is already loaded. -/
def readyState : ServiceState := ⟨some 1, some 2⟩

/-- An upload of exactly 999 bytes. -/
def bytes999 : Bytes := List.replicate 999 0

/-- An upload of exactly 1000 bytes. -/
def bytes1000 : Bytes := List.replicate 1000 0

/-- A decoded buffer of exactly 1600 samples (0.1 s at 16 kHz). -/
def zeroAudio : Audio := List.replicate 1600 0

/-- A decoded buffer of exactly 1599 samples. -/
def shortAudio : Audio := List.replicate 1599 0

/-- A world whose decoder yields 1600 samples and whose encoder yields a
single 768-dimensional time step. -/
def testWorld : World := ⟨fun _ => .ok zeroAudio, fun _ => [List.replicate EMBEDDING_DIM 1]⟩

/-- A world whose decoder yields only 1599 samples. -/
def shortAudioWorld : World := ⟨fun _ => .ok shortAudio, fun _ => []⟩

/-- A world whose decoder always raises. -/
def badDecodeWorld : World := ⟨fun _ => .error "unknown format", fun _ => []⟩

/-- A world whose encoder emits no time steps. -/
def emptyHiddenWorld : World := ⟨fun _ => .ok zeroAudio, fun _ => []⟩

/-- A hidden representation with one 768-dimensional time step. -/
def oneHidden : Hidden := [List.replicate EMBEDDING_DIM 1]

/-! ### Helper lemmas about the pooling arithmetic -/

lemma sumAxis0_cons (v : List ℚ) (t : Hidden) :
    sumAxis0 (v :: t) = List.zipWith (· + ·) v (sumAxis0 t) := rfl

lemma sumAxis0_length (hidden : Hidden)
    (hw : ∀ v ∈ hidden, v.length = EMBEDDING_DIM) :
    (sumAxis0 hidden).length = EMBEDDING_DIM := by
  induction hidden with
  | nil => simp [sumAxis0]
  | cons v t ih =>
    have hv : v.length = EMBEDDING_DIM := hw v (by simp)
    have ht := ih (fun u hu => hw u (List.mem_cons_of_mem _ hu))
    rw [sumAxis0_cons, List.length_zipWith, hv, ht, Nat.min_self]

lemma getD_zipWith_add (v w : List ℚ) (j : Nat) (hv : j < v.length)
    (hw : j < w.length) :
    (List.zipWith (· + ·) v w).getD j 0 = v.getD j 0 + w.getD j 0 := by
  induction v generalizing w j with
  | nil => simp at hv
  | cons a v ih =>
    cases w with
    | nil => simp at hw
    | cons b w =>
      cases j with
      | zero => simp
      | succ j =>
        simp only [List.zipWith_cons_cons, List.getD_cons_succ]
        exact ih w j (Nat.lt_of_succ_lt_succ hv) (Nat.lt_of_succ_lt_succ hw)

lemma getD_replicate_zero (n j : Nat) :
    (List.replicate n (0 : ℚ)).getD j 0 = 0 := by
  induction n generalizing j with
  | zero => simp
  | succ n ih => cases j <;> simp [List.replicate_succ, ih]

lemma sumAxis0_getD (hidden : Hidden)
    (hw : ∀ v ∈ hidden, v.length = EMBEDDING_DIM) (j : Nat)
    (hj : j < EMBEDDING_DIM) :
    (sumAxis0 hidden).getD j 0 = (hidden.map (fun v => v.getD j 0)).sum := by
  induction hidden with
  | nil => simp [sumAxis0, getD_replicate_zero]
  | cons v t ih =>
    have hv : v.length = EMBEDDING_DIM := hw v (by simp)
    have htw : ∀ u ∈ t, u.length = EMBEDDING_DIM :=
      fun u hu => hw u (List.mem_cons_of_mem _ hu)
    have hlen := sumAxis0_length t htw
    rw [sumAxis0_cons,
      getD_zipWith_add v _ j (by rw [hv]; exact hj) (by rw [hlen]; exact hj),
      ih htw]
    simp

lemma getD_map_div (l : List ℚ) (c : ℚ) (j : Nat) (hj : j < l.length) :
    (l.map (fun x => x / c)).getD j 0 = l.getD j 0 / c := by
  induction l generalizing j with
  | nil => simp at hj
  | cons a l ih =>
    cases j with
    | zero => simp
    | succ j => simpa using ih j (Nat.lt_of_succ_lt_succ hj)

lemma meanPool_length (hidden : Hidden)
    (hw : ∀ v ∈ hidden, v.length = EMBEDDING_DIM) :
    (meanPool hidden).length = EMBEDDING_DIM := by
  rw [meanPool, List.length_map, sumAxis0_length hidden hw]

lemma meanPool_getD (hidden : Hidden)
    (hw : ∀ v ∈ hidden, v.length = EMBEDDING_DIM) (j : Nat)
    (hj : j < EMBEDDING_DIM) :
    (meanPool hidden).getD j 0 =
      (hidden.map (fun v => v.getD j 0)).sum / (hidden.length : ℚ) := by
  rw [meanPool,
    getD_map_div _ _ j (by rw [sumAxis0_length hidden hw]; exact hj),
    sumAxis0_getD hidden hw j hj]

lemma meanPool_nil : meanPool [] = List.replicate EMBEDDING_DIM 0 := by
  simp [meanPool, sumAxis0, List.map_replicate]

/-! ### Helper lemmas about the lifecycle and the handler -/

lemma load_model_of_ready (L : Loader) (s : ServiceState)
    (h : ready s = true) : load_model L s = (s, none) := by
  rw [ready] at h
  rw [load_model, if_pos h]

lemma load_model_ok_ready (L : Loader) (s s' : ServiceState)
    (h : load_model L s = (s', none)) : ready s' = true := by
  rw [load_model] at h
  by_cases hm : s.model.isSome
  · rw [if_pos hm] at h
    obtain ⟨rfl, -⟩ := Prod.mk.injEq .. ▸ h
    exact hm
  · rw [if_neg hm] at h
    cases hp : L.loadProcessor with
    | error e => rw [hp] at h; simp at h
    | ok p =>
      rw [hp] at h
      cases hq : L.loadModel with
      | error e => rw [hq] at h; simp at h
      | ok m =>
        rw [hq] at h
        obtain ⟨rfl, -⟩ := Prod.mk.injEq .. ▸ h
        rfl

lemma embed_ready_ok (L : Loader) (W : World) (c : Bytes)
    (s : ServiceState) (h : ready s = true) :
    embed L W (.ok c) s =
      (s, if c.length < 1000 then Outcome.clientError "Audio file too short"
          else afterByteCheck W c) := by
  rw [embed, load_model_of_ready L s h]
  by_cases hc : c.length < 1000
  · simp [hc]
  · simp only [if_neg hc, afterByteCheck]
    cases hW : W.librosaLoad c with
    | error e => rfl
    | ok y =>
      by_cases hy : y.length < 1600
      · simp [hy]
      · simp [hy]

lemma embed_load_error (L : Loader) (W : World) (r : Except String Bytes)
    (s : ServiceState) (e : String) (h : (load_model L s).2 = some e) :
    embed L W r s = ((load_model L s).1, .serverError e) := by
  rw [embed]
  cases hLM : load_model L s with
  | mk s' o =>
    rw [hLM] at h
    simp only at h
    subst h
    rfl

lemma embed_fst (L : Loader) (W : World) (r : Except String Bytes)
    (s : ServiceState) : (embed L W r s).1 = (load_model L s).1 := by
  rw [embed]
  cases hLM : load_model L s with
  | mk s' o =>
    cases o with
    | some e => rfl
    | none =>
      cases r with
      | error e => rfl
      | ok c =>
        by_cases hc : c.length < 1000
        · simp [hc]
        · simp only [if_neg hc]
          cases hW : W.librosaLoad c with
          | error e => rfl
          | ok y =>
            by_cases hy : y.length < 1600
            · simp [hy]
            · simp [hy]

lemma load_model_snd_some_model_eq (L : Loader) (s : ServiceState)
    (e : String) (h : (load_model L s).2 = some e) :
    (load_model L s).1.model = s.model := by
  rw [load_model] at h ⊢
  by_cases hm : s.model.isSome = true
  · rw [if_pos hm] at h; simp at h
  · rw [if_neg hm] at h ⊢
    cases hp : L.loadProcessor with
    | error e2 => rfl
    | ok p =>
      rw [hp] at h
      cases hq : L.loadModel with
      | error e2 => rfl
      | ok m => rw [hq] at h; simp at h

/-! ### The claims -/

/-- C1: every successful response of the `/embed` handler carries an
embedding vector of exactly 768 floats, and the `dim` field equals the
number of elements of that vector, for every input — provided only that
the encoder's per-time-step vectors have the model's hidden width
`EMBEDDING_DIM = 768` (an external property of `facebook/wav2vec2-base`,
independent of the audio's duration). -/
theorem embed_output_dim_768 (L : Loader) (W : World)
    (r : Except String Bytes) (s : ServiceState)
    (hW : ∀ y, ∀ v ∈ W.lastHiddenState y, v.length = EMBEDDING_DIM)
    (vec : List ℚ) (d : Nat)
    (h : (embed L W r s).2 = Outcome.ok vec d) :
    vec.length = 768 ∧ d = vec.length := by
  rw [embed] at h
  cases hLM : load_model L s with
  | mk s' o =>
    rw [hLM] at h
    cases o with
    | some e => simp at h
    | none =>
      cases r with
      | error e => simp at h
      | ok c =>
        by_cases hc : c.length < 1000
        · simp [hc] at h
        · simp only [if_neg hc] at h
          cases hW2 : W.librosaLoad c with
          | error e => rw [hW2] at h; simp at h
          | ok y =>
            rw [hW2] at h
            by_cases hy : y.length < 1600
            · simp [hy] at h
            · simp only [if_neg hy] at h
              simp only [Outcome.ok.injEq] at h
              obtain ⟨h1, h2⟩ := h
              subst h1
              refine ⟨?_, h2.symm⟩
              simpa [EMBEDDING_DIM] using meanPool_length _ (hW y)

theorem embed_output_dim_768_witness :
    (List.replicate EMBEDDING_DIM (0 : ℚ)).length = 768 ∧
    768 = (List.replicate EMBEDDING_DIM (0 : ℚ)).length := by
  have h : (embed okLoader emptyHiddenWorld (.ok bytes1000) readyState).2 =
      Outcome.ok (List.replicate EMBEDDING_DIM (0 : ℚ)) 768 := by
    rw [embed_ready_ok okLoader emptyHiddenWorld bytes1000 readyState rfl]
    have hb : ¬ bytes1000.length < 1000 := by norm_num [bytes1000]
    rw [if_neg hb,
      show afterByteCheck emptyHiddenWorld bytes1000 =
        (if zeroAudio.length < 1600 then
          Outcome.clientError "Audio too short after load"
         else Outcome.ok (meanPool []) (meanPool []).length) from rfl,
      if_neg (by norm_num [zeroAudio]), meanPool_nil, List.length_replicate]
    rfl
  exact embed_output_dim_768 okLoader emptyHiddenWorld (.ok bytes1000)
    readyState (fun y v hv => by simp [emptyHiddenWorld] at hv) _ _ h

/-- C2: with the model loaded, an upload of fewer than 1000 raw bytes is
rejected with the 400 detail "Audio file too short" — and this outcome is
the same for every decoder, i.e. decoding is never attempted — while an
upload of at least 1000 bytes proceeds to the decoding stage
(`afterByteCheck`). -/
theorem embed_byte_threshold (L : Loader) (W : World) (s : ServiceState)
    (c : Bytes) (hm : ready s = true) :
    (c.length < 1000 →
      (embed L W (.ok c) s).2 = Outcome.clientError "Audio file too short" ∧
      ∀ W' : World,
        (embed L W' (.ok c) s).2 = Outcome.clientError "Audio file too short") ∧
    (1000 ≤ c.length → (embed L W (.ok c) s).2 = afterByteCheck W c) := by
  refine ⟨fun hc => ⟨?_, fun W' => ?_⟩, fun hc => ?_⟩
  · rw [embed_ready_ok L W c s hm]; simp [hc]
  · rw [embed_ready_ok L W' c s hm]; simp [hc]
  · rw [embed_ready_ok L W c s hm]; simp [Nat.not_lt.mpr hc]

theorem embed_byte_threshold_witness :
    (embed okLoader testWorld (.ok bytes999) readyState).2 =
      Outcome.clientError "Audio file too short" ∧
    (embed okLoader shortAudioWorld (.ok bytes999) readyState).2 =
      Outcome.clientError "Audio file too short" ∧
    (embed okLoader testWorld (.ok bytes1000) readyState).2 =
      afterByteCheck testWorld bytes1000 := by
  have h999 := embed_byte_threshold okLoader testWorld readyState bytes999 rfl
  have h1000 := embed_byte_threshold okLoader testWorld readyState bytes1000 rfl
  have hlt : bytes999.length < 1000 := by norm_num [bytes999]
  have hge : 1000 ≤ bytes1000.length := by norm_num [bytes1000]
  exact ⟨(h999.1 hlt).1, (h999.1 hlt).2 shortAudioWorld, h1000.2 hge⟩

/-- C3: with the model loaded and an upload of at least 1000 bytes, a
decoded buffer of fewer than 1600 samples is rejected with the 400 detail
"Audio too short after load" before the model is invoked, while a buffer
of at least 1600 samples proceeds to inference: the handler returns the
mean-pooled encoder output together with its length. -/
theorem embed_sample_threshold (L : Loader) (W : World) (s : ServiceState)
    (c : Bytes) (y : Audio) (hm : ready s = true)
    (hc : 1000 ≤ c.length) (hd : W.librosaLoad c = .ok y) :
    (y.length < 1600 →
      (embed L W (.ok c) s).2 = Outcome.clientError "Audio too short after load") ∧
    (1600 ≤ y.length →
      (embed L W (.ok c) s).2 =
        Outcome.ok (meanPool (W.lastHiddenState y))
          (meanPool (W.lastHiddenState y)).length) := by
  rw [embed_ready_ok L W c s hm]
  simp only [if_neg (Nat.not_lt.mpr hc), afterByteCheck, hd]
  constructor
  · intro hy; simp [hy]
  · intro hy; simp [Nat.not_lt.mpr hy]

theorem embed_sample_threshold_witness :
    (embed okLoader shortAudioWorld (.ok bytes1000) readyState).2 =
      Outcome.clientError "Audio too short after load" ∧
    (embed okLoader testWorld (.ok bytes1000) readyState).2 =
      Outcome.ok (meanPool (testWorld.lastHiddenState zeroAudio))
        (meanPool (testWorld.lastHiddenState zeroAudio)).length := by
  have hshort := embed_sample_threshold okLoader shortAudioWorld readyState
    bytes1000 shortAudio rfl (by norm_num [bytes1000]) rfl
  have hok := embed_sample_threshold okLoader testWorld readyState
    bytes1000 zeroAudio rfl (by norm_num [bytes1000]) rfl
  exact ⟨hshort.1 (by norm_num [shortAudio]), hok.2 (by norm_num [zeroAudio])⟩

/-- C4: for every nonempty per-time-step hidden representation whose rows
all have width 768, the pooled embedding has length 768 and each component
`j` is the arithmetic mean across the time axis: the sum of component `j`
over all time steps, divided by the number of time steps. -/
theorem meanPool_arithmetic_mean (hidden : Hidden)
    (hw : ∀ v ∈ hidden, v.length = EMBEDDING_DIM)
    (hT : 0 < hidden.length) (j : Nat) (hj : j < EMBEDDING_DIM) :
    (meanPool hidden).length = EMBEDDING_DIM ∧
    (meanPool hidden).getD j 0 =
      (hidden.map (fun v => v.getD j 0)).sum / (hidden.length : ℚ) :=
  ⟨meanPool_length hidden hw, meanPool_getD hidden hw j hj⟩

theorem meanPool_arithmetic_mean_witness :
    (meanPool oneHidden).length = EMBEDDING_DIM ∧
    (meanPool oneHidden).getD 0 0 =
      (oneHidden.map (fun v => v.getD 0 0)).sum / (oneHidden.length : ℚ) :=
  meanPool_arithmetic_mean oneHidden
    (by intro v hv; simp [oneHidden] at hv; simp [hv])
    (by simp [oneHidden]) 0 (by norm_num [EMBEDDING_DIM])

/-- C5: the handler is deterministic — two requests carrying byte-identical
upload contents, served against the same loaded model (same state, same
external decode and forward-pass behaviour), produce identical outcomes,
whatever the loaders of the two calls. -/
theorem embed_deterministic (L1 L2 : Loader) (W : World)
    (r1 r2 : Except String Bytes) (s : ServiceState) (c : Bytes)
    (hm : ready s = true) (h1 : r1 = .ok c) (h2 : r2 = .ok c) :
    (embed L1 W r1 s).2 = (embed L2 W r2 s).2 := by
  subst h1; subst h2
  rw [embed_ready_ok L1 W c s hm, embed_ready_ok L2 W c s hm]

theorem embed_deterministic_witness :
    (embed okLoader testWorld (.ok bytes1000) readyState).2 =
    (embed badLoader testWorld (.ok bytes1000) readyState).2 :=
  embed_deterministic okLoader badLoader testWorld (.ok bytes1000)
    (.ok bytes1000) readyState bytes1000 rfl rfl rfl

/-- C6: if the model cannot be loaded (the load attempt raises `e` from a
not-yet-ready state), the service does not become `Ready`, the `/embed`
call surfaces the load failure as an uncaught server error and never as a
success — and the `Uninitialized → Ready` transition is one-way: once
`Ready`, every further load attempt leaves the state unchanged. -/
theorem load_failure_fatal (L : Loader) (W : World)
    (r : Except String Bytes) (s : ServiceState) (e : String)
    (hnr : ready s = false) (hf : (load_model L s).2 = some e) :
    ready (load_model L s).1 = false ∧
    (embed L W r s).2 = Outcome.serverError e ∧
    (∀ vec d, (embed L W r s).2 ≠ Outcome.ok vec d) ∧
    (∀ (L' : Loader) (s' : ServiceState), ready s' = true →
      load_model L' s' = (s', none)) := by
  have h1 : ready (load_model L s).1 = false := by
    rw [ready, load_model_snd_some_model_eq L s e hf]
    rw [ready] at hnr
    exact hnr
  have h2 : embed L W r s = ((load_model L s).1, .serverError e) :=
    embed_load_error L W r s e hf
  refine ⟨h1, by rw [h2], fun vec d => by rw [h2]; simp,
    fun L' s' hs' => load_model_of_ready L' s' hs'⟩

theorem load_failure_fatal_witness :
    ready (load_model badLoader initialState).1 = false ∧
    (embed badLoader testWorld (.ok bytes999) initialState).2 =
      Outcome.serverError "download failed" ∧
    (embed badLoader testWorld (.ok bytes999) initialState).2 ≠
      Outcome.ok (List.replicate EMBEDDING_DIM 0) 768 ∧
    load_model okLoader readyState = (readyState, none) := by
  have h := load_failure_fatal badLoader testWorld (.ok bytes999)
    initialState "download failed" rfl rfl
  exact ⟨h.1, h.2.1, h.2.2.1 _ _, h.2.2.2 okLoader readyState rfl⟩

/-- C7: with the model loaded, an upload of at least 1000 bytes whose
contents fail to decode (the decoder raises `e`) yields the structured 400
client error with detail "Invalid audio: " followed by the exception
message, and never a server error. -/
theorem decode_failure_client_error (L : Loader) (W : World)
    (s : ServiceState) (c : Bytes) (e : String) (hm : ready s = true)
    (hc : 1000 ≤ c.length) (hd : W.librosaLoad c = .error e) :
    (embed L W (.ok c) s).2 = Outcome.clientError ("Invalid audio: " ++ e) ∧
    ∀ m, (embed L W (.ok c) s).2 ≠ Outcome.serverError m := by
  rw [embed_ready_ok L W c s hm]
  constructor <;> simp [if_neg (Nat.not_lt.mpr hc), afterByteCheck, hd]

theorem decode_failure_client_error_witness :
    (embed okLoader badDecodeWorld (.ok bytes1000) readyState).2 =
      Outcome.clientError ("Invalid audio: " ++ "unknown format") ∧
    (embed okLoader badDecodeWorld (.ok bytes1000) readyState).2 ≠
      Outcome.serverError "boom" := by
  have h := decode_failure_client_error okLoader badDecodeWorld readyState
    bytes1000 "unknown format" rfl (by norm_num [bytes1000]) rfl
  exact ⟨h.1, h.2 "boom"⟩

/-- C8: after any successful call to `load_model`, every subsequent call is
a no-op — it returns the state unchanged and raises nothing, for an
arbitrary loader, so the loaded handles are never reassigned. -/
theorem load_model_idempotent (L0 : Loader) (s0 s1 : ServiceState)
    (h : load_model L0 s0 = (s1, none)) :
    ∀ L : Loader, load_model L s1 = (s1, none) :=
  fun L => load_model_of_ready L s1 (load_model_ok_ready L0 s0 s1 h)

theorem load_model_idempotent_witness :
    load_model badLoader (⟨some 1, some 2⟩ : ServiceState) =
      ((⟨some 1, some 2⟩ : ServiceState), none) :=
  load_model_idempotent okLoader initialState ⟨some 1, some 2⟩ rfl badLoader

/-- C9: `embed` runs `load_model` before reading or validating the upload:
for every request — including one that validation would reject — a
successful load from a not-yet-ready state leaves the handler's final state
`Ready`, a failing load surfaces its exception as the server-error outcome
(not a 400), and the handler's final state is exactly the post-load
state. -/
theorem embed_loads_model_first (L : Loader) (W : World)
    (r : Except String Bytes) (s : ServiceState) (hnr : ready s = false) :
    ((load_model L s).2 = none → ready (embed L W r s).1 = true) ∧
    (∀ e, (load_model L s).2 = some e →
      (embed L W r s).2 = Outcome.serverError e) ∧
    (embed L W r s).1 = (load_model L s).1 := by
  refine ⟨fun hok => ?_, fun e he => by rw [embed_load_error L W r s e he],
    embed_fst L W r s⟩
  rw [embed_fst]
  have hpair : load_model L s = ((load_model L s).1, none) := by
    rw [Prod.ext_iff]
    exact ⟨rfl, hok⟩
  exact load_model_ok_ready L s _ hpair

theorem embed_loads_model_first_witness :
    ready (embed okLoader testWorld (.ok bytes999) initialState).1 = true ∧
    (embed badLoader testWorld (.ok bytes999) initialState).2 =
      Outcome.serverError "download failed" := by
  have ha := embed_loads_model_first okLoader testWorld (.ok bytes999)
    initialState rfl
  have hb := embed_loads_model_first badLoader testWorld (.ok bytes999)
    initialState rfl
  exact ⟨ha.1 rfl, hb.2.1 "download failed" rfl⟩

/-- C10: the already-loaded guard of `load_model` inspects only the model
handle: if the processor fetch succeeds and the model fetch then raises,
the processor global is left assigned while the model stays `None`, and the
next call re-runs the full load and reassigns the processor — so the
processor handle can be created more than once. -/
theorem load_model_guard_partial_init (p1 p2 m : Nat) (e : String) :
    load_model ⟨.ok p1, .error e⟩ initialState =
      ((⟨some p1, none⟩ : ServiceState), some e) ∧
    load_model ⟨.ok p2, .ok m⟩ ⟨some p1, none⟩ =
      ((⟨some p2, some m⟩ : ServiceState), none) :=
  ⟨rfl, rfl⟩

end HumEmbedding
